import Mathlib

/-!
Shallow embedding of the 6502 CPU core in `src/cpu.rs` of nestalgia_rs.

Machine integers are modelled as `Nat`. Rust `wrapping_add`/`wrapping_sub`
become explicit `% 2^w` arithmetic. Rust operations that can panic are
modelled as `Option`/`Except`:
  * array indexing out of bounds (the `memory` array has length `0xFFFF`,
    exactly as allocated by the source: `memory: [u8; 0xFFFF]`);
  * plain `+` / `-` on `u16`/`u8`, which abort on overflow/underflow in
    debug builds (the build used by the tests of the repository);
  * `expect` / `todo!()` / `panic!` in the run loop, each kept as a
    distinct error constructor mirroring its distinct panic message.

The opcode table `crate::opcodes::CPU_OPS_CODES` is external data not
present under `src/`; it is modelled from the spec (see `OpCode` and
`CPU_OPS_CODES` below) and the run loop is parameterised by an arbitrary
table, exactly as the spec describes it ("supplied as a read-only lookup
service").
-/

namespace Nestalgia

/-- Addressing modes, from `enum AddressingMode` in `src/cpu.rs`. -/
inductive AddressingMode where
  | Immediate
  | ZeroPage
  | ZeroPage_X
  | ZeroPage_Y
  | Absolute
  | Absolute_X
  | Absolute_Y
  | Indirect_X
  | Indirect_Y
  | NoneAddressing
deriving DecidableEq, Repr

/-- Modelled from the spec: the Opcode Table is external data (its source,
`crate::opcodes`, is not under `src/`). The spec describes the mnemonic as a
closed tag set — the instructions enumerated in sections 4.4/4.5 — which are
exactly the string arms of the `match opcode.op` dispatch in `run`. We model
the mnemonic tag as this closed inductive type. -/
inductive Mnemonic where
  | ADC | AND | ASL | BCC | BCS | BEQ | BIT | BMI | BNE | BPL
  | BRK | BVC | BVS | CLC | CLD | CLI | CLV | CMP | CPX | CPY
  | DEC | DEX | DEY | EOR | INC | INX | INY | JMP | JSR | LDA
  | LDX | LDY | LSR | NOP | ORA | PHA | PHP | PLA | PLP | ROL
  | ROR | RTI | RTS | SBC | SEC | SED | SEI | STA | STX | STY
  | TAX | TAY | TSX | TXA | TXS | TYA
deriving DecidableEq, Repr

/-- Modelled from the spec: an opcode descriptor {byte value, mnemonic tag,
addressing mode, instruction length in bytes}, section 3 "Opcode descriptor". -/
structure OpCode where
  code : Nat
  op : Mnemonic
  bytes : Nat
  addressing_mode : AddressingMode
deriving Repr

/-- CPU state, from `struct CPU` in `src/cpu.rs`. The `status` bitflags value
is its raw `u8`. The `memory` field models the fixed array `[u8; 0xFFFF]`:
a total function together with the explicit length bound `MEMORY_LEN` used by
the access functions below. -/
structure CPU where
  register_a : Nat
  status : Nat
  register_x : Nat
  register_y : Nat
  program_counter : Nat
  stack_pointer : Nat
  memory : Nat → Nat

/-- Length of the memory array as allocated by the source: `[u8; 0xFFFF]`,
i.e. 0xFFFF = 65535 entries (indices 0x0000 .. 0xFFFE). -/
def MEMORY_LEN : Nat := 0xFFFF

/-- `const STACK: u16 = 0x0100`. -/
def STACK : Nat := 0x0100

/-- `const STACK_RESET: u8 = 0xfd`. -/
def STACK_RESET : Nat := 0xfd

/-- Status flag bit constants, from the `bitflags!` block in `src/cpu.rs`. -/
def CPUFlags_CARRY : Nat := 0b00000001
def CPUFlags_ZERO : Nat := 0b00000010
def CPUFlags_INTERRUPT_DISABLE : Nat := 0b00000100
def CPUFlags_DECIMAL_MODE : Nat := 0b00001000
def CPUFlags_BREAK : Nat := 0b00010000
def CPUFlags_BREAK2 : Nat := 0b00100000
def CPUFlags_OVERFLOW : Nat := 0b01000000
def CPUFlags_NEGATIVE : Nat := 0b10000000

/-- bitflags `insert`: `self.bits |= other.bits`. -/
def flagInsert (status f : Nat) : Nat := status ||| f

/-- bitflags `remove`: `self.bits &= !other.bits` (`u8` complement). -/
def flagRemove (status f : Nat) : Nat := status &&& (255 ^^^ f)

/-- `CPU::new()`. -/
def CPU.new : CPU :=
  { register_a := 0
    register_x := 0
    register_y := 0
    program_counter := 0
    stack_pointer := 0
    status := 0b100100
    memory := fun _ => 0 }

/-- `fn mem_read(&self, addr: u16) -> u8`: `self.memory[addr as usize]`.
Indexing past the end of the 0xFFFF-length array is a panic, modelled as
`none`. -/
def CPU.mem_read (cpu : CPU) (addr : Nat) : Option Nat :=
  if addr < MEMORY_LEN then some (cpu.memory addr) else none

/-- `fn mem_write(&mut self, addr: u16, data: u8)`. -/
def CPU.mem_write (cpu : CPU) (addr data : Nat) : Option CPU :=
  if addr < MEMORY_LEN then
    some { cpu with memory := fun a => if a = addr then data else cpu.memory a }
  else none

/-- Rust `u16` addition with plain `+`: aborts on overflow in debug builds. -/
def u16_add (a b : Nat) : Option Nat :=
  if a + b < 65536 then some (a + b) else none

/-- Rust `u8` subtraction with plain `-`: aborts on underflow in debug builds. -/
def u8_sub (a b : Nat) : Option Nat :=
  if b ≤ a then some (a - b) else none

/-- `fn mem_read_u16(&mut self, pos: u16) -> u16`:
`lo = mem_read(pos)`, `hi = mem_read(pos + 1)`, result `(hi << 8) | lo`. -/
def CPU.mem_read_u16 (cpu : CPU) (pos : Nat) : Option Nat := do
  let lo ← cpu.mem_read pos
  let p1 ← u16_add pos 1
  let hi ← cpu.mem_read p1
  some ((hi <<< 8) ||| lo)

/-- `fn mem_write_u16(&mut self, pos: u16, data: u16)`:
`hi = (data >> 8) as u8`, `lo = (data & 0xff) as u8`,
write `lo` at `pos`, `hi` at `pos + 1`. -/
def CPU.mem_write_u16 (cpu : CPU) (pos data : Nat) : Option CPU := do
  let hi := (data >>> 8) % 256
  let lo := (data &&& 0xff) % 256
  let cpu1 ← cpu.mem_write pos lo
  let p1 ← u16_add pos 1
  cpu1.mem_write p1 hi

/-- `fn update_zero_and_negative_flags(&mut self, result: u8)`. -/
def CPU.update_zero_and_negative_flags (cpu : CPU) (result : Nat) : CPU :=
  let s1 := if result = 0 then flagInsert cpu.status CPUFlags_ZERO
            else flagRemove cpu.status CPUFlags_ZERO
  let s2 := if result &&& 0b10000000 ≠ 0 then flagInsert s1 CPUFlags_NEGATIVE
            else flagRemove s1 CPUFlags_NEGATIVE
  { cpu with status := s2 }

/-- `fn get_operand_address(&mut self, mode: &AddressingMode) -> u16`.
Rust `wrapping_add` on `u8` is `(· + ·) % 256`, on `u16` is `(· + ·) % 65536`;
`as u16` zero-extension of a `u8` is the identity on values below 256.
The `NoneAddressing` arm panics, modelled as `none`. -/
def CPU.get_operand_address (cpu : CPU) (mode : AddressingMode) : Option Nat :=
  match mode with
  | .Immediate => some cpu.program_counter
  | .ZeroPage => cpu.mem_read cpu.program_counter
  | .Absolute => cpu.mem_read_u16 cpu.program_counter
  | .ZeroPage_X =>
      (cpu.mem_read cpu.program_counter).map (fun b => (b + cpu.register_x) % 256)
  | .ZeroPage_Y =>
      (cpu.mem_read cpu.program_counter).map (fun b => (b + cpu.register_y) % 256)
  | .Absolute_X =>
      (cpu.mem_read_u16 cpu.program_counter).map (fun b => (b + cpu.register_x) % 65536)
  | .Absolute_Y =>
      (cpu.mem_read_u16 cpu.program_counter).map (fun b => (b + cpu.register_y) % 65536)
  | .Indirect_X => do
      let base ← cpu.mem_read cpu.program_counter
      let ptr := (base + cpu.register_x) % 256
      let lo ← cpu.mem_read ptr
      let hi ← cpu.mem_read ((ptr + 1) % 256)
      some ((hi <<< 8) ||| lo)
  | .Indirect_Y => do
      let base ← cpu.mem_read cpu.program_counter
      let lo ← cpu.mem_read base
      let hi ← cpu.mem_read ((base + 1) % 256)
      let deref_base := (hi <<< 8) ||| lo
      some ((deref_base + cpu.register_y) % 65536)
  | .NoneAddressing => none

/-- `pub fn reset(&mut self)`: zero registers, stack pointer to `STACK_RESET`,
status to `0b100100`, program counter from `mem_read_u16(0xFFFC)`. -/
def CPU.reset (cpu : CPU) : Option CPU :=
  (cpu.mem_read_u16 0xFFFC).map (fun pc =>
    { cpu with
        register_a := 0
        register_x := 0
        register_y := 0
        stack_pointer := STACK_RESET
        status := 0b100100
        program_counter := pc })

/-- `fn stack_pop(&mut self) -> u8`: increment the stack pointer (wrapping),
then read at `STACK + stack_pointer`. Returns the new state and the byte. -/
def CPU.stack_pop (cpu : CPU) : Option (CPU × Nat) :=
  let sp := (cpu.stack_pointer + 1) % 256
  let cpu1 : CPU := { cpu with stack_pointer := sp }
  (cpu1.mem_read (STACK + sp)).map (fun v => (cpu1, v))

/-- `fn stack_push(&mut self, data: u8)`: write at `STACK + stack_pointer`,
then decrement the stack pointer (wrapping; `x.wrapping_sub 1 = (x + 255) % 256`
for `x < 256`, and `(x % 256 + 255) % 256` in general). -/
def CPU.stack_push (cpu : CPU) (data : Nat) : Option CPU :=
  (cpu.mem_write (STACK + cpu.stack_pointer) data).map (fun cpu1 =>
    { cpu1 with stack_pointer := (cpu1.stack_pointer % 256 + 255) % 256 })

/-- `fn stack_push_u16(&mut self, data: u16)`:
`hi = (data >> 8) as u8`, `lo = (data & 0xff) as u8`; push `hi`, then `lo`. -/
def CPU.stack_push_u16 (cpu : CPU) (data : Nat) : Option CPU := do
  let hi := (data >>> 8) % 256
  let lo := (data &&& 0xff) % 256
  let cpu1 ← cpu.stack_push hi
  cpu1.stack_push lo

/-- `fn stack_pop_u16(&mut self) -> u16`: pop `lo`, then `hi`;
result `hi << 8 | lo`. -/
def CPU.stack_pop_u16 (cpu : CPU) : Option (CPU × Nat) := do
  let (cpu1, lo) ← cpu.stack_pop
  let (cpu2, hi) ← cpu1.stack_pop
  some (cpu2, (hi <<< 8) ||| lo)

/-- `fn and(&mut self, mode)`: `register_a &= mem_read(addr)`, then derive
Zero/Negative from `register_a`. -/
def CPU.and (cpu : CPU) (mode : AddressingMode) : Option CPU := do
  let addr ← cpu.get_operand_address mode
  let v ← cpu.mem_read addr
  let cpu1 : CPU := { cpu with register_a := cpu.register_a &&& v }
  some (cpu1.update_zero_and_negative_flags cpu1.register_a)

/-- `fn asl(&mut self, mode)`: operand is the accumulator for
`NoneAddressing`, else memory; Carry from outgoing bit 7; shift left
(`u8` `<<= 1` is `(· <<< 1) % 256`); write back; derive Zero/Negative.
Note the source computes `get_operand_address` first even in the
accumulator case; `NoneAddressing` would panic there, so this embedding
matches the source by failing in that case before reading the operand. -/
def CPU.asl (cpu : CPU) (mode : AddressingMode) : Option CPU := do
  match mode with
  | .NoneAddressing => none
  | _ => do
    let addr ← cpu.get_operand_address mode
    let data ← cpu.mem_read addr
    let cpu1 : CPU :=
      if data >>> 7 = 1 then { cpu with status := flagInsert cpu.status CPUFlags_CARRY }
      else { cpu with status := flagRemove cpu.status CPUFlags_CARRY }
    let data1 := (data <<< 1) % 256
    let cpu2 ← cpu1.mem_write addr data1
    some (cpu2.update_zero_and_negative_flags data1)

/-- `fn eor(&mut self, mode)`. -/
def CPU.eor (cpu : CPU) (mode : AddressingMode) : Option CPU := do
  let addr ← cpu.get_operand_address mode
  let v ← cpu.mem_read addr
  let cpu1 : CPU := { cpu with register_a := cpu.register_a ^^^ v }
  some (cpu1.update_zero_and_negative_flags cpu1.register_a)

/-- `fn dec(&mut self, mode)`: `val = mem_read(addr).wrapping_sub(1)`
(`x.wrapping_sub 1 = (x % 256 + 255) % 256`), write back, derive flags
from the written value. -/
def CPU.dec (cpu : CPU) (mode : AddressingMode) : Option CPU := do
  let addr ← cpu.get_operand_address mode
  let v ← cpu.mem_read addr
  let val := (v % 256 + 255) % 256
  let cpu1 ← cpu.mem_write addr val
  some (cpu1.update_zero_and_negative_flags val)

/-- `fn dex(&mut self)`. -/
def CPU.dex (cpu : CPU) : CPU :=
  let cpu1 : CPU := { cpu with register_x := (cpu.register_x % 256 + 255) % 256 }
  cpu1.update_zero_and_negative_flags cpu1.register_x

/-- `fn dey(&mut self)`. -/
def CPU.dey (cpu : CPU) : CPU :=
  let cpu1 : CPU := { cpu with register_y := (cpu.register_y % 256 + 255) % 256 }
  cpu1.update_zero_and_negative_flags cpu1.register_y

/-- `fn sta(&mut self, mode)`. -/
def CPU.sta (cpu : CPU) (mode : AddressingMode) : Option CPU := do
  let addr ← cpu.get_operand_address mode
  cpu.mem_write addr cpu.register_a

/-- `fn stx(&mut self, mode)`. -/
def CPU.stx (cpu : CPU) (mode : AddressingMode) : Option CPU := do
  let addr ← cpu.get_operand_address mode
  cpu.mem_write addr cpu.register_x

/-- `fn sty(&mut self, mode)`. -/
def CPU.sty (cpu : CPU) (mode : AddressingMode) : Option CPU := do
  let addr ← cpu.get_operand_address mode
  cpu.mem_write addr cpu.register_y

/-- `fn lda(&mut self, mode)`. -/
def CPU.lda (cpu : CPU) (mode : AddressingMode) : Option CPU := do
  let addr ← cpu.get_operand_address mode
  let val ← cpu.mem_read addr
  let cpu1 : CPU := { cpu with register_a := val }
  some (cpu1.update_zero_and_negative_flags cpu1.register_a)

/-- `fn ldx(&mut self, mode)`. -/
def CPU.ldx (cpu : CPU) (mode : AddressingMode) : Option CPU := do
  let addr ← cpu.get_operand_address mode
  let val ← cpu.mem_read addr
  let cpu1 : CPU := { cpu with register_x := val }
  some (cpu1.update_zero_and_negative_flags cpu1.register_x)

/-- `fn ldy(&mut self, mode)`. -/
def CPU.ldy (cpu : CPU) (mode : AddressingMode) : Option CPU := do
  let addr ← cpu.get_operand_address mode
  let val ← cpu.mem_read addr
  let cpu1 : CPU := { cpu with register_y := val }
  some (cpu1.update_zero_and_negative_flags cpu1.register_y)

/-- `fn ora(&mut self, mode)`. -/
def CPU.ora (cpu : CPU) (mode : AddressingMode) : Option CPU := do
  let addr ← cpu.get_operand_address mode
  let val ← cpu.mem_read addr
  let cpu1 : CPU := { cpu with register_a := cpu.register_a ||| val }
  some (cpu1.update_zero_and_negative_flags cpu1.register_a)

/-- `fn tax(&mut self)`. -/
def CPU.tax (cpu : CPU) : CPU :=
  let cpu1 : CPU := { cpu with register_x := cpu.register_a }
  cpu1.update_zero_and_negative_flags cpu1.register_x

/-- `fn tay(&mut self)`. -/
def CPU.tay (cpu : CPU) : CPU :=
  let cpu1 : CPU := { cpu with register_y := cpu.register_a }
  cpu1.update_zero_and_negative_flags cpu1.register_y

/-- `fn tsx(&mut self)`. -/
def CPU.tsx (cpu : CPU) : CPU :=
  let cpu1 : CPU := { cpu with register_x := cpu.stack_pointer }
  cpu1.update_zero_and_negative_flags cpu1.register_x

/-- `fn txa(&mut self)`. -/
def CPU.txa (cpu : CPU) : CPU :=
  let cpu1 : CPU := { cpu with register_a := cpu.register_x }
  cpu1.update_zero_and_negative_flags cpu1.register_a

/-- `fn tya(&mut self)`: copies `register_y` into `register_a`, then derives
flags from `register_y` (as written in the source). -/
def CPU.tya (cpu : CPU) : CPU :=
  let cpu1 : CPU := { cpu with register_a := cpu.register_y }
  cpu1.update_zero_and_negative_flags cpu1.register_y

/-- `fn inc(&mut self, mode)`: read operand, write back `val.wrapping_add(1)`,
then derive Zero/Negative from `self.register_x` (as written in the source). -/
def CPU.inc (cpu : CPU) (mode : AddressingMode) : Option CPU := do
  let addr ← cpu.get_operand_address mode
  let val ← cpu.mem_read addr
  let cpu1 ← cpu.mem_write addr ((val + 1) % 256)
  some (cpu1.update_zero_and_negative_flags cpu1.register_x)

/-- `fn inx(&mut self)`. -/
def CPU.inx (cpu : CPU) : CPU :=
  let cpu1 : CPU := { cpu with register_x := (cpu.register_x + 1) % 256 }
  cpu1.update_zero_and_negative_flags cpu1.register_x

/-- `fn iny(&mut self)`. -/
def CPU.iny (cpu : CPU) : CPU :=
  let cpu1 : CPU := { cpu with register_y := (cpu.register_y + 1) % 256 }
  cpu1.update_zero_and_negative_flags cpu1.register_y

/-- Fatal conditions of the run loop, one constructor per distinct panic in
the source: `invalidCode` is the `expect("Invalid code")` on a failed table
lookup; `notImplemented` is the `todo!()` of an unimplemented mnemonic arm;
`otherPanic` covers the remaining aborts (array index out of bounds,
`u16`/`u8` arithmetic overflow, unsupported addressing mode); `outOfFuel`
is an artifact of the fuel-bounded embedding of the unbounded `loop`, never
a code path. -/
inductive RunError where
  | invalidCode
  | notImplemented
  | otherPanic
  | outOfFuel
deriving DecidableEq, Repr

/-- Lift a panic-modelling `Option` into the error monad of the run loop. -/
def liftOpt {α : Type} : Option α → Except RunError α
  | some a => Except.ok a
  | none => Except.error RunError.otherPanic

/-- One dispatch of the `match opcode.op` in `run`. `Except.ok none` models
the early `return` of the `"BRK"` arm; `Except.ok (some c)` is a handler
completing normally with next state `c`. -/
def execOp (cpu : CPU) (op : OpCode) : Except RunError (Option CPU) :=
  match op.op with
  | .ADC => Except.error RunError.notImplemented
  | .AND => (liftOpt (cpu.and op.addressing_mode)).map some
  | .ASL => (liftOpt (cpu.asl op.addressing_mode)).map some
  | .BCC => Except.error RunError.notImplemented
  | .BCS => Except.error RunError.notImplemented
  | .BEQ => Except.error RunError.notImplemented
  | .BIT => Except.error RunError.notImplemented
  | .BMI => Except.error RunError.notImplemented
  | .BNE => Except.error RunError.notImplemented
  | .BPL => Except.error RunError.notImplemented
  | .BRK => Except.ok none
  | .BVC => Except.error RunError.notImplemented
  | .BVS => Except.error RunError.notImplemented
  | .CLC => Except.ok (some { cpu with status := flagRemove cpu.status CPUFlags_CARRY })
  | .CLD => Except.ok (some { cpu with status := flagRemove cpu.status CPUFlags_DECIMAL_MODE })
  | .CLI => Except.ok (some { cpu with status := flagRemove cpu.status CPUFlags_INTERRUPT_DISABLE })
  | .CLV => Except.ok (some { cpu with status := flagRemove cpu.status CPUFlags_OVERFLOW })
  | .CMP => Except.error RunError.notImplemented
  | .CPX => Except.error RunError.notImplemented
  | .CPY => Except.error RunError.notImplemented
  | .DEC => (liftOpt (cpu.dec op.addressing_mode)).map some
  | .DEX => Except.ok (some cpu.dex)
  | .DEY => Except.ok (some cpu.dey)
  | .EOR => (liftOpt (cpu.eor op.addressing_mode)).map some
  | .INC => (liftOpt (cpu.inc op.addressing_mode)).map some
  | .INX => Except.ok (some cpu.inx)
  | .INY => Except.ok (some cpu.iny)
  | .JMP => Except.error RunError.notImplemented
  | .JSR => Except.error RunError.notImplemented
  | .LDA => (liftOpt (cpu.lda op.addressing_mode)).map some
  | .LDX => (liftOpt (cpu.ldx op.addressing_mode)).map some
  | .LDY => (liftOpt (cpu.ldy op.addressing_mode)).map some
  | .LSR => Except.error RunError.notImplemented
  | .NOP => Except.ok (some cpu)
  | .ORA => (liftOpt (cpu.ora op.addressing_mode)).map some
  | .PHA => Except.error RunError.notImplemented
  | .PHP => Except.error RunError.notImplemented
  | .PLA =>
      (liftOpt cpu.stack_pop).map (fun p => some { p.1 with register_a := p.2 })
  | .PLP => Except.error RunError.notImplemented
  | .ROL => Except.error RunError.notImplemented
  | .ROR => Except.error RunError.notImplemented
  | .RTI => Except.error RunError.notImplemented
  | .RTS => Except.error RunError.notImplemented
  | .SBC => Except.error RunError.notImplemented
  | .SEC => Except.ok (some { cpu with status := flagInsert cpu.status CPUFlags_CARRY })
  | .SED => Except.ok (some { cpu with status := flagInsert cpu.status CPUFlags_DECIMAL_MODE })
  | .SEI => Except.ok (some { cpu with status := flagInsert cpu.status CPUFlags_INTERRUPT_DISABLE })
  | .STA => (liftOpt (cpu.sta op.addressing_mode)).map some
  | .STX => (liftOpt (cpu.stx op.addressing_mode)).map some
  | .STY => (liftOpt (cpu.sty op.addressing_mode)).map some
  | .TAX => Except.ok (some cpu.tax)
  | .TAY => Except.ok (some cpu.tay)
  | .TSX => Except.ok (some cpu.tsx)
  | .TXA => Except.ok (some cpu.txa)
  | .TXS => Except.ok (some { cpu with stack_pointer := cpu.register_x })
  | .TYA => Except.ok (some cpu.tya)

/-- Outcome of one iteration of the `loop` in `run`: the loop either returns
(`halt`, from the `"BRK"` arm) or continues with a new state. -/
inductive StepOut where
  | halt : CPU → StepOut
  | next : CPU → StepOut

/-- One iteration of the `loop` in `run`: fetch the opcode byte at the
program counter; `program_counter += 1`; look the byte up in the table
(`expect("Invalid code")` on failure); dispatch; then
`program_counter += (opcode.bytes - 1) as u16`. -/
def CPU.step (table : List OpCode) (cpu : CPU) : Except RunError StepOut :=
  match cpu.mem_read cpu.program_counter with
  | none => Except.error RunError.otherPanic
  | some code =>
    match u16_add cpu.program_counter 1 with
    | none => Except.error RunError.otherPanic
    | some pc1 =>
      let cpu1 : CPU := { cpu with program_counter := pc1 }
      match table.find? (fun o => o.code == code) with
      | none => Except.error RunError.invalidCode
      | some op =>
        match execOp cpu1 op with
        | Except.error e => Except.error e
        | Except.ok none => Except.ok (StepOut.halt cpu1)
        | Except.ok (some cpu2) =>
          match u8_sub op.bytes 1 with
          | none => Except.error RunError.otherPanic
          | some d =>
            match u16_add cpu2.program_counter d with
            | none => Except.error RunError.otherPanic
            | some pc2 => Except.ok (StepOut.next { cpu2 with program_counter := pc2 })

/-- `pub fn run(&mut self)`, bounded by fuel (an artifact of the embedding:
the source loops unboundedly; every theorem below supplies enough fuel). -/
def runFuel (table : List OpCode) : Nat → CPU → Except RunError CPU
  | 0, _ => Except.error RunError.outOfFuel
  | fuel + 1, cpu =>
    match cpu.step table with
    | Except.error e => Except.error e
    | Except.ok (StepOut.halt c) => Except.ok c
    | Except.ok (StepOut.next c) => runFuel table fuel c

/-- Modelled from the spec: a fragment of the external Opcode Table
(`crate::opcodes::CPU_OPS_CODES`, not under `src/`), with the descriptors
{byte value, mnemonic, length, addressing mode} used by the literal
scenarios of section 8 of the spec, plus PLA and ADC. Used only to instantiate theorems
that are proved for an arbitrary table. -/
def CPU_OPS_CODES : List OpCode :=
  [ ⟨0x00, Mnemonic.BRK, 1, AddressingMode.NoneAddressing⟩
  , ⟨0xA9, Mnemonic.LDA, 2, AddressingMode.Immediate⟩
  , ⟨0xA5, Mnemonic.LDA, 2, AddressingMode.ZeroPage⟩
  , ⟨0xAA, Mnemonic.TAX, 1, AddressingMode.NoneAddressing⟩
  , ⟨0xE8, Mnemonic.INX, 1, AddressingMode.NoneAddressing⟩
  , ⟨0x85, Mnemonic.STA, 2, AddressingMode.ZeroPage⟩
  , ⟨0xC6, Mnemonic.DEC, 2, AddressingMode.ZeroPage⟩
  , ⟨0x25, Mnemonic.AND, 2, AddressingMode.ZeroPage⟩
  , ⟨0x29, Mnemonic.AND, 2, AddressingMode.Immediate⟩
  , ⟨0x49, Mnemonic.EOR, 2, AddressingMode.Immediate⟩
  , ⟨0x05, Mnemonic.ORA, 2, AddressingMode.ZeroPage⟩
  , ⟨0xE6, Mnemonic.INC, 2, AddressingMode.ZeroPage⟩
  , ⟨0x68, Mnemonic.PLA, 1, AddressingMode.NoneAddressing⟩
  , ⟨0x69, Mnemonic.ADC, 2, AddressingMode.Immediate⟩ ]

/-- The mnemonics whose dispatch arm in `run` is `todo!()`. -/
def unimplementedMnemonics : List Mnemonic :=
  [ .ADC, .BCC, .BCS, .BEQ, .BIT, .BMI, .BNE, .BPL, .BVC, .BVS
  , .CMP, .CPX, .CPY, .JMP, .JSR, .LSR, .PHA, .PHP, .PLP, .ROL
  , .ROR, .RTI, .RTS, .SBC ]

/-- Concrete state for evaluating `inc`: memory holds 0x7F at address 0x10,
the program counter points at an operand byte 0x10, and `register_x = 0`. -/
def incTestCPU : CPU :=
  { CPU.new with
      program_counter := 0x0200
      memory := fun a => if a = 0x0200 then 0x10 else if a = 0x10 then 0x7F else 0 }

/-- Concrete state whose next opcode byte (0xFF) has no entry in the table. -/
def unrecognizedTestCPU : CPU :=
  { CPU.new with memory := fun a => if a = 0 then 0xFF else 0 }

/-- Concrete state whose next opcode byte (0x69, ADC) is recognized but
dispatches to an unimplemented arm. -/
def unimplementedTestCPU : CPU :=
  { CPU.new with memory := fun a => if a = 0 then 0x69 else 0 }

/-- Concrete state whose next opcode byte is 0x68 (PLA). -/
def plaTestCPU : CPU :=
  { CPU.new with memory := fun a => if a = 0 then 0x68 else 0 }

/-- Little-endian reassembly `(hi << 8) | lo` equals `256 * hi + lo` when the
low byte is in range. -/
theorem lor_shift8 (hi lo : Nat) (h : lo < 256) : (hi <<< 8) ||| lo = 256 * hi + lo := by
  have h' : lo < 2 ^ 8 := by omega
  calc (hi <<< 8) ||| lo = 2 ^ 8 * hi ||| lo := by rw [Nat.shiftLeft_eq, Nat.mul_comm]
    _ = 2 ^ 8 * hi + lo := (Nat.mul_add_lt_is_or h' hi).symm
    _ = 256 * hi + lo := by norm_num

/-- C1: the claim says every 16-bit address, in particular 0xFFFF, is readable
and writable. The source allocates `memory: [u8; 0xFFFF]` — 65535 bytes — so
indexing address 0xFFFF is out of bounds and both accesses abort, for every
CPU state and every data byte. -/
theorem mem_top_address_out_of_bounds (cpu : CPU) (d : Nat) :
    cpu.mem_read 0xFFFF = none ∧ cpu.mem_write 0xFFFF d = none := by
  constructor <;> simp [CPU.mem_read, CPU.mem_write, MEMORY_LEN]

/-- C4: the claim says a 16-bit read at 0xFFFF succeeds, taking the low byte
from 0xFFFF and the high byte from 0x0000. In the source the read aborts:
`mem_read(0xFFFF)` indexes the 65535-byte array out of bounds (and `pos + 1`
is a non-wrapping add), for every CPU state. -/
theorem mem_read_u16_top_fails (cpu : CPU) :
    cpu.mem_read_u16 0xFFFF = none := by
  simp [CPU.mem_read_u16, CPU.mem_read, MEMORY_LEN]

/-- C5: the claim says a program counter at 0xFFFF advances to 0x0000 without
failure. In the source the fetch at 0xFFFF indexes the 65535-byte memory
array out of bounds and the run loop aborts, for every table and fuel. -/
theorem run_pc_top_fails (table : List OpCode) (fuel : Nat) (cpu : CPU) :
    runFuel table (fuel + 1) { cpu with program_counter := 0xFFFF } =
      Except.error RunError.otherPanic := by
  simp [runFuel, CPU.step, CPU.mem_read, MEMORY_LEN]

/-- C2: the claim says INC derives Zero/Negative from the freshly written
value. Evaluating `inc` at a state with operand byte 0x7F and
`register_x = 0`: the written value is 0x80 (Zero clear, Negative set under
the claim), yet the resulting status has Zero set (2) and Negative clear (0)
— the flags are derived from `register_x`. -/
theorem inc_flags_follow_register_x :
    (incTestCPU.inc AddressingMode.ZeroPage).map
        (fun c => (c.memory 0x10, c.status &&& CPUFlags_ZERO, c.status &&& CPUFlags_NEGATIVE))
      = some (0x80, 2, 0) := by
  rfl

/-- C3 counterexample: the claim says the post-reset status has exactly
InterruptDisable and Negative set (0b10000100). At the concrete state
`CPU.new`, reset yields status 0b00100100 — not the claimed pattern: its
Negative bit (7) is clear and its Break2 bit (5) is set. -/
theorem reset_status_counterexample :
    (CPU.new.reset).map CPU.status = some 0b100100 ∧
    (0b100100 : Nat) ≠ 0b10000100 ∧
    Nat.testBit 0b100100 7 = false ∧
    Nat.testBit 0b100100 5 = true := by
  refine ⟨rfl, by decide, by decide, by decide⟩

/-- C3 amended: after `reset()`, in every prior CPU state (with the low
reset-vector byte in `u8` range, as the Rust types guarantee): accumulator and
index registers are 0, the stack pointer is `STACK_RESET`, the status is the
fixed startup pattern 0b100100 — exactly InterruptDisable and Break2 set —
and the program counter is the 16-bit little-endian value stored at the
reset-vector location 0xFFFC; no other state, in particular no memory, is
changed. -/
theorem reset_spec (cpu : CPU)
    (hlo : cpu.memory 0xFFFC < 256) :
    cpu.reset = some
      { cpu with
          register_a := 0
          register_x := 0
          register_y := 0
          stack_pointer := STACK_RESET
          status := 0b100100
          program_counter := 256 * cpu.memory 0xFFFD + cpu.memory 0xFFFC } := by
  have h1 : (0xFFFC : Nat) < MEMORY_LEN := by norm_num [MEMORY_LEN]
  have h2 : (0xFFFD : Nat) < MEMORY_LEN := by norm_num [MEMORY_LEN]
  simp [CPU.reset, CPU.mem_read_u16, CPU.mem_read, u16_add, h1, h2, MEMORY_LEN,
    lor_shift8 _ _ hlo]

/-- Witness for the amended C3 theorem at the concrete state `CPU.new`. -/
theorem reset_spec_witness :
    CPU.new.reset = some
      { CPU.new with
          register_a := 0
          register_x := 0
          register_y := 0
          stack_pointer := STACK_RESET
          status := 0b100100
          program_counter := 256 * CPU.new.memory 0xFFFD + CPU.new.memory 0xFFFC } :=
  reset_spec CPU.new (by decide)

/-- C6: for every CPU state and register value, an address resolved for
ZeroPage_X or ZeroPage_Y never exceeds 0x00FF — the operand byte plus the
index register wraps at 8 bits and stays within page 0. -/
theorem zeropage_indexed_stays_in_page_zero (cpu : CPU) (mode : AddressingMode) (a : Nat)
    (hmode : mode = AddressingMode.ZeroPage_X ∨ mode = AddressingMode.ZeroPage_Y)
    (h : cpu.get_operand_address mode = some a) :
    a ≤ 0xFF := by
  rcases hmode with rfl | rfl <;>
  · simp only [CPU.get_operand_address, Option.map_eq_some'] at h
    obtain ⟨b, -, rfl⟩ := h
    omega

/-- Witness for the C6 theorem: at `CPU.new`, ZeroPage_X resolves to 0. -/
theorem zeropage_indexed_witness : (0 : Nat) ≤ 0xFF :=
  zeropage_indexed_stays_in_page_zero CPU.new AddressingMode.ZeroPage_X 0
    (Or.inl rfl) rfl

/-- C7: for every CPU state and 16-bit value v, the 16-bit push writes the
high byte at the stack pointer and the low byte one below it (nearer the top
of the stack), the 16-bit pop reads the low byte first then the high byte
reassembling `(high << 8) | low`, and popping immediately after pushing v
returns exactly v with the stack pointer restored. -/
theorem stack_push_pop_u16_roundtrip (cpu : CPU) (v : Nat)
    (hv : v < 65536) (hsp : cpu.stack_pointer < 256) :
    ((cpu.stack_push_u16 v).bind CPU.stack_pop_u16).map Prod.snd = some v ∧
    ((cpu.stack_push_u16 v).bind CPU.stack_pop_u16).map (fun p => p.1.stack_pointer)
      = some cpu.stack_pointer ∧
    (cpu.stack_push_u16 v).map (fun c => c.memory (STACK + cpu.stack_pointer))
      = some ((v >>> 8) % 256) ∧
    (cpu.stack_push_u16 v).map
        (fun c => c.memory (STACK + (cpu.stack_pointer + 255) % 256))
      = some ((v &&& 0xff) % 256) := by
  obtain ⟨a, st, x, y, pc, sp, m⟩ := cpu
  simp only at hsp ⊢
  have h1 : STACK + sp < MEMORY_LEN := by simp only [STACK, MEMORY_LEN]; omega
  have hsp1 : (sp % 256 + 255) % 256 = (sp + 255) % 256 := by omega
  have hb : ∀ t : Nat, STACK + t % 256 < MEMORY_LEN := by
    intro t; simp only [STACK, MEMORY_LEN]; omega
  have hne : STACK + sp ≠ STACK + (sp + 255) % 256 := by
    simp only [STACK]; omega
  have e1 : (sp + 255 + 255 + 1) % 256 = (sp + 255) % 256 := by omega
  have e2 : ((sp + 255) % 256 + 1) % 256 = sp := by omega
  have e3 : ¬ sp = (sp + 255) % 256 := by omega
  have hshift : v >>> 8 = v / 256 := by
    rw [Nat.shiftRight_eq_div_pow]
  have hand : v &&& 255 = v % 256 := by
    have h := Nat.and_pow_two_sub_one_eq_mod v 8
    norm_num at h; exact h
  have hdiv : v / 256 < 256 := by omega
  have em : v % 256 % 256 = v % 256 := by omega
  simp [CPU.stack_push_u16, CPU.stack_push, CPU.stack_pop_u16, CPU.stack_pop,
    CPU.mem_write, CPU.mem_read, h1, hb, hsp1, hne, e1, e2, e3, Option.bind,
    hshift, hand, Nat.mod_eq_of_lt hdiv, em,
    lor_shift8 (v / 256) (v % 256) (by omega)]
  omega

/-- Witness for the C7 theorem at `CPU.new` with v = 0xABCD. -/
theorem stack_push_pop_u16_roundtrip_witness :
    ((CPU.new.stack_push_u16 0xABCD).bind CPU.stack_pop_u16).map Prod.snd = some 0xABCD ∧
    ((CPU.new.stack_push_u16 0xABCD).bind CPU.stack_pop_u16).map (fun p => p.1.stack_pointer)
      = some CPU.new.stack_pointer ∧
    (CPU.new.stack_push_u16 0xABCD).map (fun c => c.memory (STACK + CPU.new.stack_pointer))
      = some ((0xABCD >>> 8) % 256) ∧
    (CPU.new.stack_push_u16 0xABCD).map
        (fun c => c.memory (STACK + (CPU.new.stack_pointer + 255) % 256))
      = some ((0xABCD &&& 0xff) % 256) :=
  stack_push_pop_u16_roundtrip CPU.new 0xABCD (by decide) (by decide)

/-- C8: when the fetched opcode maps to the halt instruction (BRK), the run
loop returns immediately with the program counter at its post-fetch
increment and no other state change — it is not advanced by
(instruction length - 1). Proved for every CPU state and every table whose
lookup of the fetched byte yields a BRK descriptor. -/
theorem brk_halts_immediately (table : List OpCode) (fuel : Nat) (cpu : CPU)
    (code : Nat) (op : OpCode)
    (hf : cpu.mem_read cpu.program_counter = some code)
    (ht : table.find? (fun o => o.code == code) = some op)
    (hop : op.op = Mnemonic.BRK) :
    runFuel table (fuel + 1) cpu =
      Except.ok { cpu with program_counter := cpu.program_counter + 1 } := by
  have hpc : cpu.program_counter < MEMORY_LEN := by
    by_contra h
    simp [CPU.mem_read, h] at hf
  have hadd : u16_add cpu.program_counter 1 = some (cpu.program_counter + 1) := by
    have : cpu.program_counter + 1 < 65536 := by simp [MEMORY_LEN] at hpc; omega
    simp [u16_add, this]
  simp [runFuel, CPU.step, hf, hadd, ht, execOp, hop]

/-- Witness for the C8 theorem: `CPU.new` fetches byte 0x00 (BRK) and run
halts with the program counter advanced by exactly 1. -/
theorem brk_halts_witness :
    runFuel CPU_OPS_CODES 1 CPU.new =
      Except.ok { CPU.new with program_counter := CPU.new.program_counter + 1 } :=
  brk_halts_immediately CPU_OPS_CODES 0 CPU.new 0
    ⟨0x00, Mnemonic.BRK, 1, AddressingMode.NoneAddressing⟩ rfl rfl rfl

/-- C9: fetching a byte with no entry in the table stops `run` with the
`invalidCode` fatal signal (the `expect("Invalid code")` path), fetching a
recognized opcode whose mnemonic has no handler stops it with the distinct
`notImplemented` signal (the `todo!()` path), and the two signals differ. -/
theorem run_error_signals_distinct
    (table1 table2 : List OpCode) (cpuA cpuB : CPU) (f1 f2 : Nat)
    (code1 code2 : Nat) (op2 : OpCode)
    (hf1 : cpuA.mem_read cpuA.program_counter = some code1)
    (h1 : table1.find? (fun o => o.code == code1) = none)
    (hf2 : cpuB.mem_read cpuB.program_counter = some code2)
    (h2 : table2.find? (fun o => o.code == code2) = some op2)
    (hu : op2.op ∈ unimplementedMnemonics) :
    runFuel table1 (f1 + 1) cpuA = Except.error RunError.invalidCode ∧
    runFuel table2 (f2 + 1) cpuB = Except.error RunError.notImplemented ∧
    RunError.invalidCode ≠ RunError.notImplemented := by
  have hpc1 : cpuA.program_counter < MEMORY_LEN := by
    by_contra h; simp [CPU.mem_read, h] at hf1
  have hadd1 : u16_add cpuA.program_counter 1 = some (cpuA.program_counter + 1) := by
    have : cpuA.program_counter + 1 < 65536 := by simp [MEMORY_LEN] at hpc1; omega
    simp [u16_add, this]
  have hpc2 : cpuB.program_counter < MEMORY_LEN := by
    by_contra h; simp [CPU.mem_read, h] at hf2
  have hadd2 : u16_add cpuB.program_counter 1 = some (cpuB.program_counter + 1) := by
    have : cpuB.program_counter + 1 < 65536 := by simp [MEMORY_LEN] at hpc2; omega
    simp [u16_add, this]
  have hexec : ∀ c : CPU, execOp c op2 = Except.error RunError.notImplemented := by
    intro c
    simp only [unimplementedMnemonics, List.mem_cons, List.not_mem_nil, or_false] at hu
    rcases hu with h|h|h|h|h|h|h|h|h|h|h|h|h|h|h|h|h|h|h|h|h|h|h|h <;>
      simp [execOp, h]
  refine ⟨?_, ?_, by decide⟩
  · simp [runFuel, CPU.step, hf1, hadd1, h1]
  · simp [runFuel, CPU.step, hf2, hadd2, h2, hexec]

/-- Witness for the C9 theorem: with the modelled table, byte 0xFF (no
entry) yields `invalidCode` and byte 0x69 (ADC, unimplemented) yields
`notImplemented`. -/
theorem run_error_signals_distinct_witness :
    runFuel CPU_OPS_CODES 1 unrecognizedTestCPU = Except.error RunError.invalidCode ∧
    runFuel CPU_OPS_CODES 1 unimplementedTestCPU = Except.error RunError.notImplemented ∧
    RunError.invalidCode ≠ RunError.notImplemented :=
  run_error_signals_distinct CPU_OPS_CODES CPU_OPS_CODES
    unrecognizedTestCPU unimplementedTestCPU 0 0 0xFF 0x69
    ⟨0x69, Mnemonic.ADC, 2, AddressingMode.Immediate⟩
    rfl rfl rfl rfl (by decide)

/-- C10: executing PLA pops exactly one byte from the stack (the stack
pointer is incremented by 1 modulo 256), stores it in the accumulator, and
leaves the status register — every flag, including Zero and Negative —
and all memory and other registers unchanged. Proved for every CPU state
and every table whose lookup yields a one-byte PLA descriptor. -/
theorem pla_pops_one_byte_no_flag_change (table : List OpCode) (cpu : CPU)
    (code : Nat) (op : OpCode)
    (hf : cpu.mem_read cpu.program_counter = some code)
    (ht : table.find? (fun o => o.code == code) = some op)
    (hop : op.op = Mnemonic.PLA) (hb : op.bytes = 1) :
    cpu.step table = Except.ok (StepOut.next
      { cpu with
          program_counter := cpu.program_counter + 1
          stack_pointer := (cpu.stack_pointer + 1) % 256
          register_a := cpu.memory (STACK + (cpu.stack_pointer + 1) % 256) }) := by
  have hpc : cpu.program_counter < MEMORY_LEN := by
    by_contra h; simp [CPU.mem_read, h] at hf
  have hadd : u16_add cpu.program_counter 1 = some (cpu.program_counter + 1) := by
    have : cpu.program_counter + 1 < 65536 := by simp [MEMORY_LEN] at hpc; omega
    simp [u16_add, this]
  have hsb : u8_sub op.bytes 1 = some 0 := by simp [u8_sub, hb]
  have hread : STACK + (cpu.stack_pointer + 1) % 256 < MEMORY_LEN := by
    simp only [STACK, MEMORY_LEN]; omega
  have hadd0 : u16_add (cpu.program_counter + 1) 0 = some (cpu.program_counter + 1) := by
    have : cpu.program_counter + 1 + 0 < 65536 := by simp [MEMORY_LEN] at hpc; omega
    simp [u16_add, this]
  simp only [CPU.step, hf, hadd, ht]
  simp only [execOp, hop]
  simp [CPU.stack_pop, CPU.mem_read, hread, liftOpt, hsb, hadd0, Except.map]

/-- Witness for the C10 theorem: a state whose next opcode byte is 0x68
(PLA), stepped with the modelled table. -/
theorem pla_witness :
    plaTestCPU.step CPU_OPS_CODES = Except.ok (StepOut.next
      { plaTestCPU with
          program_counter := plaTestCPU.program_counter + 1
          stack_pointer := (plaTestCPU.stack_pointer + 1) % 256
          register_a := plaTestCPU.memory (STACK + (plaTestCPU.stack_pointer + 1) % 256) }) :=
  pla_pops_one_byte_no_flag_change CPU_OPS_CODES plaTestCPU 0x68
    ⟨0x68, Mnemonic.PLA, 1, AddressingMode.NoneAddressing⟩ rfl rfl rfl rfl

end Nestalgia
